import Mathlib

/-!
# Formal model of `apps/greybus/gpiotest/gpiotest.c`

A shallow embedding of the Greybus GPIO conformance-test driver.  The external
line-capability library (`libfwtest` / `commsteps.h`) is modelled as a record
of state-passing functions (`Cap`); every capability invocation is additionally
recorded in an event trace so that call counts and call order can be reasoned
about.  The logging helpers `check_step_result` and `print_test_result` are
modelled as recorders of the `(case_id, ret)` pairs handed to them - in the C
code they only print and cannot alter `ret` or the control flow.

Each `ARA_*` scenario definition is a line-by-line translation of the
corresponding C function: `ret` threading becomes `let` bindings, the
`strncasecmp` mode branches become `isType` tests, C `for` loops become
`List.foldl` over `List.range`, and the idiom
`if (!ret) { ret = strcmp(buf, expected); }` becomes `verify`.
-/

namespace Gpiotest

/-- `EINVAL` from `<errno.h>`: the code fails invalid-addressing steps and the
unknown-case branch with `-EINVAL`. -/
def EINVAL : Int := 22

/-- Lexicographic character comparison, the core of C `strcmp`. -/
def strcmpAux : List Char → List Char → Int
  | [], [] => 0
  | [], _ :: _ => -1
  | _ :: _, [] => 1
  | a :: as, b :: bs =>
    if a.toNat < b.toNat then -1
    else if b.toNat < a.toNat then 1
    else strcmpAux as bs

/-- Model of C `strcmp`: `0` exactly on equal strings, a nonzero value of the
correct sign otherwise.  The code only ever tests the result against `0` or
returns it upward. -/
def strcmp (a b : String) : Int :=
  strcmpAux a.data b.data

/-- Model of `!strncasecmp(t, tag, strlen(tag) + 1)` for the one-character mode
tags `"s"`, `"m"`, `"a"`: true iff `t` equals the tag case-insensitively
(the comparison includes the terminating NUL, so it is an exact match of the
whole string). -/
def isType (t : String) (c : Char) : Bool :=
  t.data.map Char.toLower == [c]

/-- The verification idiom of the source,
`if (!ret) { ret = strcmp(buf, expected); }`:
the comparison runs only when the preceding capability call returned `0`. -/
def verify (ret : Int) (buf expected : String) : Int :=
  if ret = 0 then strcmp buf expected else ret

/-- `struct gpio_app_info` (gpiotest.c lines 46-54). -/
structure GpioAppInfo where
  case_id : Nat
  base_pin : Nat
  max_count : Nat
  gpio_pin1 : Nat
  gpio_pin2 : Nat
  gpio_pin3 : Nat
  num_type : String
  deriving DecidableEq

/-- One capability-layer invocation, as visible at the interface boundary of
`libfwtest`/`commsteps.h` (the `case_id` argument of the C wrappers is used
only for logging and is omitted). -/
inductive CapCall where
  | activate (pin : Nat)
  | activateMulti (p1 p2 p3 : Nat)
  | deactivate (pin : Nat)
  | deactivateMulti (p1 p2 p3 : Nat)
  | getDirection (pin : Nat)
  | setDirection (pin : Nat) (v : String)
  | getValue (pin : Nat)
  | setValue (pin : Nat) (v : String)
  | getEdge (pin : Nat)
  | setEdge (pin : Nat) (v : String)
  | getCount (pin : Nat)
  | checkGpio
  deriving DecidableEq

/-- The external line-capability collaborator, with abstract device state `σ`.
Getters return an error code together with the buffer contents they produce;
setters and (de)activation return an error code.  `checkGpio` models
`check_greybus_gpio`, returning an error code, the discovered base pin and the
line count. -/
structure Cap (σ : Type) where
  activate : Nat → σ → Int × σ
  activateMulti : Nat → Nat → Nat → σ → Int × σ
  deactivate : Nat → σ → Int × σ
  deactivateMulti : Nat → Nat → Nat → σ → Int × σ
  getDirection : Nat → σ → (Int × String) × σ
  setDirection : Nat → String → σ → Int × σ
  getValue : Nat → σ → (Int × String) × σ
  setValue : Nat → String → σ → Int × σ
  getEdge : Nat → σ → (Int × String) × σ
  setEdge : Nat → String → σ → Int × σ
  getCount : Nat → σ → (Int × String) × σ
  checkGpio : σ → (Int × Nat × Nat) × σ

/-- Run state threaded through a scenario: the device state, the trace of
capability calls made so far, and the `(case_id, ret)` pairs passed to
`check_step_result` and `print_test_result`. -/
structure RunSt (σ : Type) where
  dev : σ
  trace : List CapCall
  checked : List (Nat × Int)
  printed : List (Nat × Int)
  deriving DecidableEq

/-- Fresh run state for one process invocation. -/
def RunSt.init {σ : Type} (s : σ) : RunSt σ :=
  { dev := s, trace := [], checked := [], printed := [] }

section Primitives

variable {σ : Type}

/-- `activate_gpio_pin(case_id, pin)`. -/
def doActivate (cap : Cap σ) (pin : Nat) (r : RunSt σ) : Int × RunSt σ :=
  ((cap.activate pin r.dev).1,
   { dev := (cap.activate pin r.dev).2
     trace := r.trace ++ [CapCall.activate pin]
     checked := r.checked
     printed := r.printed })

/-- `activate_gpio_multiple_pin(case_id, p1, p2, p3)`. -/
def doActivateMulti (cap : Cap σ) (p1 p2 p3 : Nat) (r : RunSt σ) : Int × RunSt σ :=
  ((cap.activateMulti p1 p2 p3 r.dev).1,
   { dev := (cap.activateMulti p1 p2 p3 r.dev).2
     trace := r.trace ++ [CapCall.activateMulti p1 p2 p3]
     checked := r.checked
     printed := r.printed })

/-- `deactivate_gpio_pin(case_id, pin)`. -/
def doDeactivate (cap : Cap σ) (pin : Nat) (r : RunSt σ) : Int × RunSt σ :=
  ((cap.deactivate pin r.dev).1,
   { dev := (cap.deactivate pin r.dev).2
     trace := r.trace ++ [CapCall.deactivate pin]
     checked := r.checked
     printed := r.printed })

/-- `deactivate_gpio_multiple_pin(case_id, p1, p2, p3)`. -/
def doDeactivateMulti (cap : Cap σ) (p1 p2 p3 : Nat) (r : RunSt σ) : Int × RunSt σ :=
  ((cap.deactivateMulti p1 p2 p3 r.dev).1,
   { dev := (cap.deactivateMulti p1 p2 p3 r.dev).2
     trace := r.trace ++ [CapCall.deactivateMulti p1 p2 p3]
     checked := r.checked
     printed := r.printed })

/-- `get_gpio_direction(case_id, pin, buf, size)`: returns `(ret, buf)`. -/
def doGetDirection (cap : Cap σ) (pin : Nat) (r : RunSt σ) : (Int × String) × RunSt σ :=
  ((cap.getDirection pin r.dev).1,
   { dev := (cap.getDirection pin r.dev).2
     trace := r.trace ++ [CapCall.getDirection pin]
     checked := r.checked
     printed := r.printed })

/-- `set_gpio_direction(case_id, pin, buf, size)` where `buf` holds `v`. -/
def doSetDirection (cap : Cap σ) (pin : Nat) (v : String) (r : RunSt σ) : Int × RunSt σ :=
  ((cap.setDirection pin v r.dev).1,
   { dev := (cap.setDirection pin v r.dev).2
     trace := r.trace ++ [CapCall.setDirection pin v]
     checked := r.checked
     printed := r.printed })

/-- `get_gpio_value(case_id, pin, buf, size)`: returns `(ret, buf)`. -/
def doGetValue (cap : Cap σ) (pin : Nat) (r : RunSt σ) : (Int × String) × RunSt σ :=
  ((cap.getValue pin r.dev).1,
   { dev := (cap.getValue pin r.dev).2
     trace := r.trace ++ [CapCall.getValue pin]
     checked := r.checked
     printed := r.printed })

/-- `set_gpio_value(case_id, pin, buf, size)` where `buf` holds `v`. -/
def doSetValue (cap : Cap σ) (pin : Nat) (v : String) (r : RunSt σ) : Int × RunSt σ :=
  ((cap.setValue pin v r.dev).1,
   { dev := (cap.setValue pin v r.dev).2
     trace := r.trace ++ [CapCall.setValue pin v]
     checked := r.checked
     printed := r.printed })

/-- `get_gpio_edge(case_id, pin, buf, size)`: returns `(ret, buf)`. -/
def doGetEdge (cap : Cap σ) (pin : Nat) (r : RunSt σ) : (Int × String) × RunSt σ :=
  ((cap.getEdge pin r.dev).1,
   { dev := (cap.getEdge pin r.dev).2
     trace := r.trace ++ [CapCall.getEdge pin]
     checked := r.checked
     printed := r.printed })

/-- `set_gpio_edge(case_id, pin, buf, size)` where `buf` holds `v`. -/
def doSetEdge (cap : Cap σ) (pin : Nat) (v : String) (r : RunSt σ) : Int × RunSt σ :=
  ((cap.setEdge pin v r.dev).1,
   { dev := (cap.setEdge pin v r.dev).2
     trace := r.trace ++ [CapCall.setEdge pin v]
     checked := r.checked
     printed := r.printed })

/-- `get_greybus_gpio_count(base_pin, buf, size)`: returns `(ret, buf)`. -/
def doGetCount (cap : Cap σ) (pin : Nat) (r : RunSt σ) : (Int × String) × RunSt σ :=
  ((cap.getCount pin r.dev).1,
   { dev := (cap.getCount pin r.dev).2
     trace := r.trace ++ [CapCall.getCount pin]
     checked := r.checked
     printed := r.printed })

/-- `check_greybus_gpio(&base_pin, &max_count)`: returns
`(ret, base_pin, max_count)`. -/
def doCheckGpio (cap : Cap σ) (r : RunSt σ) : (Int × Nat × Nat) × RunSt σ :=
  ((cap.checkGpio r.dev).1,
   { dev := (cap.checkGpio r.dev).2
     trace := r.trace ++ [CapCall.checkGpio]
     checked := r.checked
     printed := r.printed })

/-- `check_step_result(case_id, ret)` from libfwtest: logs an intermediate
step result; modelled as recording the pair. -/
def check_step_result (cid : Nat) (ret : Int) (r : RunSt σ) : RunSt σ :=
  { r with checked := r.checked ++ [(cid, ret)] }

/-- `print_test_result(case_id, ret)` from libfwtest: reports the final case
result; modelled as recording the pair. -/
def print_test_result (cid : Nat) (ret : Int) (r : RunSt σ) : RunSt σ :=
  { r with printed := r.printed ++ [(cid, ret)] }

end Primitives

section Scenarios

variable {σ : Type}

/-- `ARA_263_get_count` (gpiotest.c lines 152-170).  Reads the debugfs line
count and reports the read's status.  (The C code also stores
`atoi(countbuf)` into `info->max_count` and logs it; the stored value is never
read again in this scenario, so only the call and the reported status are
modelled.) -/
def ARA_263_get_count (cap : Cap σ) (info : GpioAppInfo) (r : RunSt σ) :
    Int × RunSt σ :=
  let g := doGetCount cap info.base_pin r
  let r1 := print_test_result info.case_id g.1.1 g.2
  (g.1.1, r1)

/-- `ARA_264_multiple_activate` (gpiotest.c lines 181-215): activate the
addressed pin(s), print the result, then deactivate the same pin(s) and return
the deactivation result. -/
def ARA_264_multiple_activate (cap : Cap σ) (info : GpioAppInfo) (r : RunSt σ) :
    Int × RunSt σ :=
  let s1 :=
    if isType info.num_type 'm' then
      doActivateMulti cap (info.base_pin + info.gpio_pin1)
        (info.base_pin + info.gpio_pin2) (info.base_pin + info.gpio_pin3) r
    else if isType info.num_type 's' then
      doActivate cap (info.base_pin + info.gpio_pin1) r
    else (-EINVAL, r)
  let r1 := print_test_result info.case_id s1.1 s1.2
  let s2 :=
    if isType info.num_type 'm' then
      doDeactivateMulti cap (info.base_pin + info.gpio_pin1)
        (info.base_pin + info.gpio_pin2) (info.base_pin + info.gpio_pin3) r1
    else if isType info.num_type 's' then
      doDeactivate cap (info.base_pin + info.gpio_pin1) r1
    else (-EINVAL, r1)
  s2

/-- `ARA_267_multiple_deactivate` (gpiotest.c lines 226-261): activate,
check the step, deactivate, and print the deactivation result. -/
def ARA_267_multiple_deactivate (cap : Cap σ) (info : GpioAppInfo) (r : RunSt σ) :
    Int × RunSt σ :=
  let s1 :=
    if isType info.num_type 'm' then
      doActivateMulti cap (info.base_pin + info.gpio_pin1)
        (info.base_pin + info.gpio_pin2) (info.base_pin + info.gpio_pin3) r
    else if isType info.num_type 's' then
      doActivate cap (info.base_pin + info.gpio_pin1) r
    else (-EINVAL, r)
  let r1 := check_step_result info.case_id s1.1 s1.2
  let s2 :=
    if isType info.num_type 'm' then
      doDeactivateMulti cap (info.base_pin + info.gpio_pin1)
        (info.base_pin + info.gpio_pin2) (info.base_pin + info.gpio_pin3) r1
    else if isType info.num_type 's' then
      doDeactivate cap (info.base_pin + info.gpio_pin1) r1
    else (-EINVAL, r1)
  let r2 := print_test_result info.case_id s2.1 s2.2
  (s2.1, r2)

/-- Main sequence of `ARA_270_multiple_direction` (gpiotest.c lines 272-312):
activate the addressed pin(s), check, read their direction(s), and print the
result of the last read. -/
def ARA_270_mainPhase (cap : Cap σ) (info : GpioAppInfo) (r : RunSt σ) :
    Int × RunSt σ :=
  let s1 :=
    if isType info.num_type 'm' then
      doActivateMulti cap (info.base_pin + info.gpio_pin1)
        (info.base_pin + info.gpio_pin2) (info.base_pin + info.gpio_pin3) r
    else if isType info.num_type 's' then
      doActivate cap (info.base_pin + info.gpio_pin1) r
    else (-EINVAL, r)
  let r1 := check_step_result info.case_id s1.1 s1.2
  let s2 :=
    if isType info.num_type 'm' then
      let g1 := doGetDirection cap (info.base_pin + info.gpio_pin1) r1
      let g2 := doGetDirection cap (info.base_pin + info.gpio_pin2) g1.2
      let g3 := doGetDirection cap (info.base_pin + info.gpio_pin3) g2.2
      (g3.1.1, g3.2)
    else if isType info.num_type 's' then
      let g1 := doGetDirection cap (info.base_pin + info.gpio_pin1) r1
      (g1.1.1, g1.2)
    else (-EINVAL, r1)
  let r2 := print_test_result info.case_id s2.1 s2.2
  (s2.1, r2)

/-- Recovery phase of `ARA_270_multiple_direction` (gpiotest.c lines 314-328):
deactivate the addressed pin(s); the result of this block is what the C
function returns. -/
def ARA_270_recoveryPhase (cap : Cap σ) (info : GpioAppInfo) (r : RunSt σ) :
    Int × RunSt σ :=
  let s3 :=
    if isType info.num_type 'm' then
      doDeactivateMulti cap (info.base_pin + info.gpio_pin1)
        (info.base_pin + info.gpio_pin2) (info.base_pin + info.gpio_pin3) r
    else if isType info.num_type 's' then
      doDeactivate cap (info.base_pin + info.gpio_pin1) r
    else (-EINVAL, r)
  s3

/-- `ARA_270_multiple_direction` (gpiotest.c lines 272-329). -/
def ARA_270_multiple_direction (cap : Cap σ) (info : GpioAppInfo) (r : RunSt σ) :
    Int × RunSt σ :=
  let s1 :=
    if isType info.num_type 'm' then
      doActivateMulti cap (info.base_pin + info.gpio_pin1)
        (info.base_pin + info.gpio_pin2) (info.base_pin + info.gpio_pin3) r
    else if isType info.num_type 's' then
      doActivate cap (info.base_pin + info.gpio_pin1) r
    else (-EINVAL, r)
  let r1 := check_step_result info.case_id s1.1 s1.2
  let s2 :=
    if isType info.num_type 'm' then
      let g1 := doGetDirection cap (info.base_pin + info.gpio_pin1) r1
      let g2 := doGetDirection cap (info.base_pin + info.gpio_pin2) g1.2
      let g3 := doGetDirection cap (info.base_pin + info.gpio_pin3) g2.2
      (g3.1.1, g3.2)
    else if isType info.num_type 's' then
      let g1 := doGetDirection cap (info.base_pin + info.gpio_pin1) r1
      (g1.1.1, g1.2)
    else (-EINVAL, r1)
  let r2 := print_test_result info.case_id s2.1 s2.2
  let s3 :=
    if isType info.num_type 'm' then
      doDeactivateMulti cap (info.base_pin + info.gpio_pin1)
        (info.base_pin + info.gpio_pin2) (info.base_pin + info.gpio_pin3) r2
    else if isType info.num_type 's' then
      doDeactivate cap (info.base_pin + info.gpio_pin1) r2
    else (-EINVAL, r2)
  s3

/-- `ARA_271_multiple_times_direction` (gpiotest.c lines 341-382): single-pin
only; activate, check, read the direction ten times, print the last read's
result, deactivate. -/
def ARA_271_multiple_times_direction (cap : Cap σ) (info : GpioAppInfo)
    (r : RunSt σ) : Int × RunSt σ :=
  let s1 :=
    if isType info.num_type 's' then
      doActivate cap (info.base_pin + info.gpio_pin1) r
    else (-EINVAL, r)
  let r1 := check_step_result info.case_id s1.1 s1.2
  let s2 :=
    (List.range 10).foldl
      (fun a _ =>
        if isType info.num_type 's' then
          let g := doGetDirection cap (info.base_pin + info.gpio_pin1) a.2
          (g.1.1, g.2)
        else (-EINVAL, a.2))
      (s1.1, r1)
  let r2 := print_test_result info.case_id s2.1 s2.2
  let s3 :=
    if isType info.num_type 's' then
      doDeactivate cap (info.base_pin + info.gpio_pin1) r2
    else (-EINVAL, r2)
  s3

/-- `ARA_272_all_direction` (gpiotest.c lines 394-464): under `'a'` addressing
the loops run over `i < max_count` on lines `base_pin + i`; `'m'`/`'s'` behave
like the other direction scenarios.  `ret` starts at `0`, so with
`max_count = 0` the `'a'` loops perform no calls and leave `ret` untouched. -/
def ARA_272_all_direction (cap : Cap σ) (info : GpioAppInfo) (r : RunSt σ) :
    Int × RunSt σ :=
  let s1 :=
    if isType info.num_type 'a' then
      (List.range info.max_count).foldl
        (fun a i => doActivate cap (info.base_pin + i) a.2) (0, r)
    else if isType info.num_type 'm' then
      doActivateMulti cap (info.base_pin + info.gpio_pin1)
        (info.base_pin + info.gpio_pin2) (info.base_pin + info.gpio_pin3) r
    else if isType info.num_type 's' then
      doActivate cap (info.base_pin + info.gpio_pin1) r
    else (-EINVAL, r)
  let r1 := check_step_result info.case_id s1.1 s1.2
  let s2 :=
    if isType info.num_type 'a' then
      (List.range info.max_count).foldl
        (fun a i =>
          let g := doGetDirection cap (info.base_pin + i) a.2
          (g.1.1, g.2))
        (s1.1, r1)
    else if isType info.num_type 'm' then
      let g1 := doGetDirection cap (info.base_pin + info.gpio_pin1) r1
      let g2 := doGetDirection cap (info.base_pin + info.gpio_pin2) g1.2
      let g3 := doGetDirection cap (info.base_pin + info.gpio_pin3) g2.2
      (g3.1.1, g3.2)
    else if isType info.num_type 's' then
      let g1 := doGetDirection cap (info.base_pin + info.gpio_pin1) r1
      (g1.1.1, g1.2)
    else (-EINVAL, r1)
  let r2 := print_test_result info.case_id s2.1 s2.2
  let s3 :=
    if isType info.num_type 'a' then
      (List.range info.max_count).foldl
        (fun a i => doDeactivate cap (info.base_pin + i) a.2) (s2.1, r2)
    else if isType info.num_type 'm' then
      doDeactivateMulti cap (info.base_pin + info.gpio_pin1)
        (info.base_pin + info.gpio_pin2) (info.base_pin + info.gpio_pin3) r2
    else if isType info.num_type 's' then
      doDeactivate cap (info.base_pin + info.gpio_pin1) r2
    else (-EINVAL, r2)
  s3

/-- Common shape of `ARA_273_multiple_input` and `ARA_276_multiple_output`
(gpiotest.c lines 476-564 and 644-732, identical up to the direction literal
`d`): activate (`'m'`/`'s'`), check, set the direction of each addressed pin to
`d`, check, then read each direction back verifying it against `d` (the next
read overwrites the previous verification result), print, deactivate. -/
def dirVerifyScenario (d : String) (cap : Cap σ) (info : GpioAppInfo)
    (r : RunSt σ) : Int × RunSt σ :=
  let s1 :=
    if isType info.num_type 'm' then
      doActivateMulti cap (info.base_pin + info.gpio_pin1)
        (info.base_pin + info.gpio_pin2) (info.base_pin + info.gpio_pin3) r
    else if isType info.num_type 's' then
      doActivate cap (info.base_pin + info.gpio_pin1) r
    else (-EINVAL, r)
  let r1 := check_step_result info.case_id s1.1 s1.2
  let s2 :=
    if isType info.num_type 'm' then
      let t1 := doSetDirection cap (info.base_pin + info.gpio_pin1) d r1
      let t2 := doSetDirection cap (info.base_pin + info.gpio_pin2) d t1.2
      let t3 := doSetDirection cap (info.base_pin + info.gpio_pin3) d t2.2
      (t3.1, t3.2)
    else if isType info.num_type 's' then
      doSetDirection cap (info.base_pin + info.gpio_pin1) d r1
    else (-EINVAL, r1)
  let r2 := check_step_result info.case_id s2.1 s2.2
  let s3 :=
    if isType info.num_type 'm' then
      let g1 := doGetDirection cap (info.base_pin + info.gpio_pin1) r2
      let _v1 := verify g1.1.1 g1.1.2 d
      let g2 := doGetDirection cap (info.base_pin + info.gpio_pin2) g1.2
      let _v2 := verify g2.1.1 g2.1.2 d
      let g3 := doGetDirection cap (info.base_pin + info.gpio_pin3) g2.2
      (verify g3.1.1 g3.1.2 d, g3.2)
    else if isType info.num_type 's' then
      let g1 := doGetDirection cap (info.base_pin + info.gpio_pin1) r2
      (verify g1.1.1 g1.1.2 d, g1.2)
    else (-EINVAL, r2)
  let r3 := print_test_result info.case_id s3.1 s3.2
  let s4 :=
    if isType info.num_type 'm' then
      doDeactivateMulti cap (info.base_pin + info.gpio_pin1)
        (info.base_pin + info.gpio_pin2) (info.base_pin + info.gpio_pin3) r3
    else if isType info.num_type 's' then
      doDeactivate cap (info.base_pin + info.gpio_pin1) r3
    else (-EINVAL, r3)
  s4

/-- `ARA_273_multiple_input` (gpiotest.c lines 476-564), direction `"in"`. -/
def ARA_273_multiple_input (cap : Cap σ) (info : GpioAppInfo) (r : RunSt σ) :
    Int × RunSt σ :=
  dirVerifyScenario "in" cap info r

/-- `ARA_276_multiple_output` (gpiotest.c lines 644-732), direction `"out"`. -/
def ARA_276_multiple_output (cap : Cap σ) (info : GpioAppInfo) (r : RunSt σ) :
    Int × RunSt σ :=
  dirVerifyScenario "out" cap info r

/-- Common shape of `ARA_274_multiple_times_input` and
`ARA_277_multiple_times_output` (gpiotest.c lines 576-632 and 744-799,
identical up to the direction literal `d`): single-pin only; activate, check,
set the direction to `d` ten times, check, read the direction back verifying
it against `d`, print, deactivate. -/
def dirRepeatScenario (d : String) (cap : Cap σ) (info : GpioAppInfo)
    (r : RunSt σ) : Int × RunSt σ :=
  let s1 :=
    if isType info.num_type 's' then
      doActivate cap (info.base_pin + info.gpio_pin1) r
    else (-EINVAL, r)
  let r1 := check_step_result info.case_id s1.1 s1.2
  let s2 :=
    (List.range 10).foldl
      (fun a _ =>
        if isType info.num_type 's' then
          doSetDirection cap (info.base_pin + info.gpio_pin1) d a.2
        else (-EINVAL, a.2))
      (s1.1, r1)
  let r2 := check_step_result info.case_id s2.1 s2.2
  let s3 :=
    if isType info.num_type 's' then
      let g1 := doGetDirection cap (info.base_pin + info.gpio_pin1) r2
      (verify g1.1.1 g1.1.2 d, g1.2)
    else (-EINVAL, r2)
  let r3 := print_test_result info.case_id s3.1 s3.2
  let s4 :=
    if isType info.num_type 's' then
      doDeactivate cap (info.base_pin + info.gpio_pin1) r3
    else (-EINVAL, r3)
  s4

/-- `ARA_274_multiple_times_input` (gpiotest.c lines 576-632). -/
def ARA_274_multiple_times_input (cap : Cap σ) (info : GpioAppInfo)
    (r : RunSt σ) : Int × RunSt σ :=
  dirRepeatScenario "in" cap info r

/-- `ARA_277_multiple_times_output` (gpiotest.c lines 744-799). -/
def ARA_277_multiple_times_output (cap : Cap σ) (info : GpioAppInfo)
    (r : RunSt σ) : Int × RunSt σ :=
  dirRepeatScenario "out" cap info r

/-- `ARA_279_get_value` (gpiotest.c lines 812-886): activate (`'m'`/`'s'`),
check, set direction `"in"` on each addressed pin, check, read each pin's
value (no verification), print, deactivate. -/
def ARA_279_get_value (cap : Cap σ) (info : GpioAppInfo) (r : RunSt σ) :
    Int × RunSt σ :=
  let s1 :=
    if isType info.num_type 'm' then
      doActivateMulti cap (info.base_pin + info.gpio_pin1)
        (info.base_pin + info.gpio_pin2) (info.base_pin + info.gpio_pin3) r
    else if isType info.num_type 's' then
      doActivate cap (info.base_pin + info.gpio_pin1) r
    else (-EINVAL, r)
  let r1 := check_step_result info.case_id s1.1 s1.2
  let s2 :=
    if isType info.num_type 'm' then
      let t1 := doSetDirection cap (info.base_pin + info.gpio_pin1) "in" r1
      let t2 := doSetDirection cap (info.base_pin + info.gpio_pin2) "in" t1.2
      let t3 := doSetDirection cap (info.base_pin + info.gpio_pin3) "in" t2.2
      (t3.1, t3.2)
    else if isType info.num_type 's' then
      doSetDirection cap (info.base_pin + info.gpio_pin1) "in" r1
    else (-EINVAL, r1)
  let r2 := check_step_result info.case_id s2.1 s2.2
  let s3 :=
    if isType info.num_type 'm' then
      let g1 := doGetValue cap (info.base_pin + info.gpio_pin1) r2
      let g2 := doGetValue cap (info.base_pin + info.gpio_pin2) g1.2
      let g3 := doGetValue cap (info.base_pin + info.gpio_pin3) g2.2
      (g3.1.1, g3.2)
    else if isType info.num_type 's' then
      let g1 := doGetValue cap (info.base_pin + info.gpio_pin1) r2
      (g1.1.1, g1.2)
    else (-EINVAL, r2)
  let r3 := print_test_result info.case_id s3.1 s3.2
  let s4 :=
    if isType info.num_type 'm' then
      doDeactivateMulti cap (info.base_pin + info.gpio_pin1)
        (info.base_pin + info.gpio_pin2) (info.base_pin + info.gpio_pin3) r3
    else if isType info.num_type 's' then
      doDeactivate cap (info.base_pin + info.gpio_pin1) r3
    else (-EINVAL, r3)
  s4

/-- Common shape of `ARA_281_set_value_high` and `ARA_282_set_value_low`
(gpiotest.c lines 897-975 and 986-1061, identical up to the value literal
`v`): single-pin only; activate, set direction `"out"`, set value `v`, read
the direction back verifying `"out"`, read the value back verifying `v`
(printed), deactivate. -/
def valueScenario (v : String) (cap : Cap σ) (info : GpioAppInfo)
    (r : RunSt σ) : Int × RunSt σ :=
  let s1 :=
    if isType info.num_type 's' then
      doActivate cap (info.base_pin + info.gpio_pin1) r
    else (-EINVAL, r)
  let r1 := check_step_result info.case_id s1.1 s1.2
  let s2 :=
    if isType info.num_type 's' then
      doSetDirection cap (info.base_pin + info.gpio_pin1) "out" r1
    else (-EINVAL, r1)
  let r2 := check_step_result info.case_id s2.1 s2.2
  let s3 :=
    if isType info.num_type 's' then
      doSetValue cap (info.base_pin + info.gpio_pin1) v r2
    else (-EINVAL, r2)
  let r3 := check_step_result info.case_id s3.1 s3.2
  let s4 :=
    if isType info.num_type 's' then
      let g1 := doGetDirection cap (info.base_pin + info.gpio_pin1) r3
      (verify g1.1.1 g1.1.2 "out", g1.2)
    else (-EINVAL, r3)
  let r4 := check_step_result info.case_id s4.1 s4.2
  let s5 :=
    if isType info.num_type 's' then
      let g2 := doGetValue cap (info.base_pin + info.gpio_pin1) r4
      (verify g2.1.1 g2.1.2 v, g2.2)
    else (-EINVAL, r4)
  let r5 := print_test_result info.case_id s5.1 s5.2
  let s6 :=
    if isType info.num_type 's' then
      doDeactivate cap (info.base_pin + info.gpio_pin1) r5
    else (-EINVAL, r5)
  s6

/-- `ARA_281_set_value_high` (gpiotest.c lines 897-975), value `"1"`. -/
def ARA_281_set_value_high (cap : Cap σ) (info : GpioAppInfo) (r : RunSt σ) :
    Int × RunSt σ :=
  valueScenario "1" cap info r

/-- `ARA_282_set_value_low` (gpiotest.c lines 986-1061), value `"0"`. -/
def ARA_282_set_value_low (cap : Cap σ) (info : GpioAppInfo) (r : RunSt σ) :
    Int × RunSt σ :=
  valueScenario "0" cap info r

/-- Common shape of `ARA_286_set_edge_rising`, `ARA_287_set_edge_falling` and
`ARA_288_set_edge_both` (gpiotest.c lines 1073-1151, 1163-1241, 1253-1331,
identical up to the edge literal `e`): single-pin only; activate, set
direction `"out"`, set value `"1"`, set edge `e`, read the edge back verifying
`e` (printed), deactivate. -/
def edgeScenario (e : String) (cap : Cap σ) (info : GpioAppInfo)
    (r : RunSt σ) : Int × RunSt σ :=
  let s1 :=
    if isType info.num_type 's' then
      doActivate cap (info.base_pin + info.gpio_pin1) r
    else (-EINVAL, r)
  let r1 := check_step_result info.case_id s1.1 s1.2
  let s2 :=
    if isType info.num_type 's' then
      doSetDirection cap (info.base_pin + info.gpio_pin1) "out" r1
    else (-EINVAL, r1)
  let r2 := check_step_result info.case_id s2.1 s2.2
  let s3 :=
    if isType info.num_type 's' then
      doSetValue cap (info.base_pin + info.gpio_pin1) "1" r2
    else (-EINVAL, r2)
  let r3 := check_step_result info.case_id s3.1 s3.2
  let s4 :=
    if isType info.num_type 's' then
      doSetEdge cap (info.base_pin + info.gpio_pin1) e r3
    else (-EINVAL, r3)
  let r4 := check_step_result info.case_id s4.1 s4.2
  let s5 :=
    if isType info.num_type 's' then
      let g1 := doGetEdge cap (info.base_pin + info.gpio_pin1) r4
      (verify g1.1.1 g1.1.2 e, g1.2)
    else (-EINVAL, r4)
  let r5 := print_test_result info.case_id s5.1 s5.2
  let s6 :=
    if isType info.num_type 's' then
      doDeactivate cap (info.base_pin + info.gpio_pin1) r5
    else (-EINVAL, r5)
  s6

/-- `ARA_286_set_edge_rising` (gpiotest.c lines 1073-1151). -/
def ARA_286_set_edge_rising (cap : Cap σ) (info : GpioAppInfo) (r : RunSt σ) :
    Int × RunSt σ :=
  edgeScenario "rising" cap info r

/-- `ARA_287_set_edge_falling` (gpiotest.c lines 1163-1241). -/
def ARA_287_set_edge_falling (cap : Cap σ) (info : GpioAppInfo) (r : RunSt σ) :
    Int × RunSt σ :=
  edgeScenario "falling" cap info r

/-- `ARA_288_set_edge_both` (gpiotest.c lines 1253-1331). -/
def ARA_288_set_edge_both (cap : Cap σ) (info : GpioAppInfo) (r : RunSt σ) :
    Int × RunSt σ :=
  edgeScenario "both" cap info r

/-- `ARA_409_input_to_output` (gpiotest.c lines 1343-1451): single-pin only;
activate, set direction `"in"`, read the value, deactivate, re-activate, set
direction `"out"`, set value `"1"`, read the value back verifying `"1"`
(printed), deactivate. -/
def ARA_409_input_to_output (cap : Cap σ) (info : GpioAppInfo) (r : RunSt σ) :
    Int × RunSt σ :=
  let s1 :=
    if isType info.num_type 's' then
      doActivate cap (info.base_pin + info.gpio_pin1) r
    else (-EINVAL, r)
  let r1 := check_step_result info.case_id s1.1 s1.2
  let s2 :=
    if isType info.num_type 's' then
      doSetDirection cap (info.base_pin + info.gpio_pin1) "in" r1
    else (-EINVAL, r1)
  let r2 := check_step_result info.case_id s2.1 s2.2
  let s3 :=
    if isType info.num_type 's' then
      let g1 := doGetValue cap (info.base_pin + info.gpio_pin1) r2
      (g1.1.1, g1.2)
    else (-EINVAL, r2)
  let r3 := check_step_result info.case_id s3.1 s3.2
  let s4 :=
    if isType info.num_type 's' then
      doDeactivate cap (info.base_pin + info.gpio_pin1) r3
    else (-EINVAL, r3)
  let r4 := check_step_result info.case_id s4.1 s4.2
  let s5 :=
    if isType info.num_type 's' then
      doActivate cap (info.base_pin + info.gpio_pin1) r4
    else (-EINVAL, r4)
  let r5 := check_step_result info.case_id s5.1 s5.2
  let s6 :=
    if isType info.num_type 's' then
      doSetDirection cap (info.base_pin + info.gpio_pin1) "out" r5
    else (-EINVAL, r5)
  let r6 := check_step_result info.case_id s6.1 s6.2
  let s7 :=
    if isType info.num_type 's' then
      doSetValue cap (info.base_pin + info.gpio_pin1) "1" r6
    else (-EINVAL, r6)
  let r7 := check_step_result info.case_id s7.1 s7.2
  let s8 :=
    if isType info.num_type 's' then
      let g2 := doGetValue cap (info.base_pin + info.gpio_pin1) r7
      (verify g2.1.1 g2.1.2 "1", g2.2)
    else (-EINVAL, r7)
  let r8 := print_test_result info.case_id s8.1 s8.2
  let s9 :=
    if isType info.num_type 's' then
      doDeactivate cap (info.base_pin + info.gpio_pin1) r8
    else (-EINVAL, r8)
  s9

/-- `ARA_410_output_to_input` (gpiotest.c lines 1463-1558): single-pin only;
activate, set direction `"out"`, set value `"1"`, deactivate, re-activate, set
direction `"in"`, read the value (no verification, printed), deactivate. -/
def ARA_410_output_to_input (cap : Cap σ) (info : GpioAppInfo) (r : RunSt σ) :
    Int × RunSt σ :=
  let s1 :=
    if isType info.num_type 's' then
      doActivate cap (info.base_pin + info.gpio_pin1) r
    else (-EINVAL, r)
  let r1 := check_step_result info.case_id s1.1 s1.2
  let s2 :=
    if isType info.num_type 's' then
      doSetDirection cap (info.base_pin + info.gpio_pin1) "out" r1
    else (-EINVAL, r1)
  let r2 := check_step_result info.case_id s2.1 s2.2
  let s3 :=
    if isType info.num_type 's' then
      doSetValue cap (info.base_pin + info.gpio_pin1) "1" r2
    else (-EINVAL, r2)
  let r3 := check_step_result info.case_id s3.1 s3.2
  let s4 :=
    if isType info.num_type 's' then
      doDeactivate cap (info.base_pin + info.gpio_pin1) r3
    else (-EINVAL, r3)
  let r4 := check_step_result info.case_id s4.1 s4.2
  let s5 :=
    if isType info.num_type 's' then
      doActivate cap (info.base_pin + info.gpio_pin1) r4
    else (-EINVAL, r4)
  let r5 := check_step_result info.case_id s5.1 s5.2
  let s6 :=
    if isType info.num_type 's' then
      doSetDirection cap (info.base_pin + info.gpio_pin1) "in" r5
    else (-EINVAL, r5)
  let r6 := check_step_result info.case_id s6.1 s6.2
  let s7 :=
    if isType info.num_type 's' then
      let g1 := doGetValue cap (info.base_pin + info.gpio_pin1) r6
      (g1.1.1, g1.2)
    else (-EINVAL, r6)
  let r7 := print_test_result info.case_id s7.1 s7.2
  let s8 :=
    if isType info.num_type 's' then
      doDeactivate cap (info.base_pin + info.gpio_pin1) r7
    else (-EINVAL, r7)
  s8

/-- Common shape of the edge-transition scenarios `ARA_411` to `ARA_413`,
`ARA_416` and `ARA_417` (gpiotest.c lines 1570-1674, 1686-1790, 1802-1906,
1918-2022, 2034-2138, identical up to the edge literals `e1`, `e2`): single-pin
only; activate, set direction `"out"`, set value `"1"`, set edge `e1`, read
the edge verifying `e1`, set edge `e2`, read the edge verifying `e2`
(printed), deactivate. -/
def edgeTransScenario (e1 e2 : String) (cap : Cap σ) (info : GpioAppInfo)
    (r : RunSt σ) : Int × RunSt σ :=
  let s1 :=
    if isType info.num_type 's' then
      doActivate cap (info.base_pin + info.gpio_pin1) r
    else (-EINVAL, r)
  let r1 := check_step_result info.case_id s1.1 s1.2
  let s2 :=
    if isType info.num_type 's' then
      doSetDirection cap (info.base_pin + info.gpio_pin1) "out" r1
    else (-EINVAL, r1)
  let r2 := check_step_result info.case_id s2.1 s2.2
  let s3 :=
    if isType info.num_type 's' then
      doSetValue cap (info.base_pin + info.gpio_pin1) "1" r2
    else (-EINVAL, r2)
  let r3 := check_step_result info.case_id s3.1 s3.2
  let s4 :=
    if isType info.num_type 's' then
      doSetEdge cap (info.base_pin + info.gpio_pin1) e1 r3
    else (-EINVAL, r3)
  let r4 := check_step_result info.case_id s4.1 s4.2
  let s5 :=
    if isType info.num_type 's' then
      let g1 := doGetEdge cap (info.base_pin + info.gpio_pin1) r4
      (verify g1.1.1 g1.1.2 e1, g1.2)
    else (-EINVAL, r4)
  let r5 := check_step_result info.case_id s5.1 s5.2
  let s6 :=
    if isType info.num_type 's' then
      doSetEdge cap (info.base_pin + info.gpio_pin1) e2 r5
    else (-EINVAL, r5)
  let r6 := check_step_result info.case_id s6.1 s6.2
  let s7 :=
    if isType info.num_type 's' then
      let g2 := doGetEdge cap (info.base_pin + info.gpio_pin1) r6
      (verify g2.1.1 g2.1.2 e2, g2.2)
    else (-EINVAL, r6)
  let r7 := print_test_result info.case_id s7.1 s7.2
  let s8 :=
    if isType info.num_type 's' then
      doDeactivate cap (info.base_pin + info.gpio_pin1) r7
    else (-EINVAL, r7)
  s8

/-- `ARA_411_falling_to_rising` (gpiotest.c lines 1570-1674). -/
def ARA_411_falling_to_rising (cap : Cap σ) (info : GpioAppInfo) (r : RunSt σ) :
    Int × RunSt σ :=
  edgeTransScenario "falling" "rising" cap info r

/-- `ARA_412_rising_to_falling` (gpiotest.c lines 1686-1790). -/
def ARA_412_rising_to_falling (cap : Cap σ) (info : GpioAppInfo) (r : RunSt σ) :
    Int × RunSt σ :=
  edgeTransScenario "rising" "falling" cap info r

/-- `ARA_413_rising_to_both` (gpiotest.c lines 1802-1906). -/
def ARA_413_rising_to_both (cap : Cap σ) (info : GpioAppInfo) (r : RunSt σ) :
    Int × RunSt σ :=
  edgeTransScenario "rising" "both" cap info r

/-- `ARA_416_none_to_both` (gpiotest.c lines 1918-2022). -/
def ARA_416_none_to_both (cap : Cap σ) (info : GpioAppInfo) (r : RunSt σ) :
    Int × RunSt σ :=
  edgeTransScenario "none" "both" cap info r

/-- `ARA_417_both_to_none` (gpiotest.c lines 2034-2138). -/
def ARA_417_both_to_none (cap : Cap σ) (info : GpioAppInfo) (r : RunSt σ) :
    Int × RunSt σ :=
  edgeTransScenario "both" "none" cap info r

/-- `switch_case_number` (gpiotest.c lines 2146-2199): static dispatch from
the case identifier to its scenario; any other identifier logs an error and
returns `-EINVAL` without touching the capability layer. -/
def switch_case_number (cap : Cap σ) (info : GpioAppInfo) (r : RunSt σ) :
    Int × RunSt σ :=
  if info.case_id = 263 then ARA_263_get_count cap info r
  else if info.case_id = 264 then ARA_264_multiple_activate cap info r
  else if info.case_id = 267 then ARA_267_multiple_deactivate cap info r
  else if info.case_id = 270 then ARA_270_multiple_direction cap info r
  else if info.case_id = 271 then ARA_271_multiple_times_direction cap info r
  else if info.case_id = 272 then ARA_272_all_direction cap info r
  else if info.case_id = 273 then ARA_273_multiple_input cap info r
  else if info.case_id = 274 then ARA_274_multiple_times_input cap info r
  else if info.case_id = 276 then ARA_276_multiple_output cap info r
  else if info.case_id = 277 then ARA_277_multiple_times_output cap info r
  else if info.case_id = 279 then ARA_279_get_value cap info r
  else if info.case_id = 281 then ARA_281_set_value_high cap info r
  else if info.case_id = 282 then ARA_282_set_value_low cap info r
  else if info.case_id = 286 then ARA_286_set_edge_rising cap info r
  else if info.case_id = 287 then ARA_287_set_edge_falling cap info r
  else if info.case_id = 288 then ARA_288_set_edge_both cap info r
  else if info.case_id = 409 then ARA_409_input_to_output cap info r
  else if info.case_id = 410 then ARA_410_output_to_input cap info r
  else if info.case_id = 411 then ARA_411_falling_to_rising cap info r
  else if info.case_id = 412 then ARA_412_rising_to_falling cap info r
  else if info.case_id = 413 then ARA_413_rising_to_both cap info r
  else if info.case_id = 416 then ARA_416_none_to_both cap info r
  else if info.case_id = 417 then ARA_417_both_to_none cap info r
  else (-EINVAL, r)

/-- The case identifiers `switch_case_number` recognizes. -/
def recognizedCaseIds : List Nat :=
  [263, 264, 267, 270, 271, 272, 273, 274, 276, 277, 279, 281, 282,
   286, 287, 288, 409, 410, 411, 412, 413, 416, 417]

/-- `main` after successful argument parsing (gpiotest.c lines 2226-2240):
discover the controller's base pin and line count, store them in the context,
check the step, and if the discovery succeeded dispatch the selected case; the
scenario's return value is returned as the process exit status.  (Argument
parsing and usage printing, lines 2213-2224, are outside the modelled core per
the design's scope.) -/
def main_run (cap : Cap σ) (info0 : GpioAppInfo) (r : RunSt σ) :
    Int × RunSt σ :=
  let c := doCheckGpio cap r
  let info := { info0 with base_pin := c.1.2.1, max_count := c.1.2.2 }
  let r1 := check_step_result info.case_id c.1.1 c.2
  if c.1.1 = 0 then
    let s := switch_case_number cap info r1
    let r2 := check_step_result info.case_id s.1 s.2
    (s.1, r2)
  else (c.1.1, r1)

end Scenarios

section Mocks

/-- A stateless mock capability: every call succeeds, direction reads return
`dir`, value reads return `val`, edge reads return `edge`. -/
def constCap (dir val edge : String) : Cap Unit where
  activate := fun _ s => (0, s)
  activateMulti := fun _ _ _ s => (0, s)
  deactivate := fun _ s => (0, s)
  deactivateMulti := fun _ _ _ s => (0, s)
  getDirection := fun _ s => ((0, dir), s)
  setDirection := fun _ _ s => (0, s)
  getValue := fun _ s => ((0, val), s)
  setValue := fun _ _ s => (0, s)
  getEdge := fun _ s => ((0, edge), s)
  setEdge := fun _ _ s => (0, s)
  getCount := fun _ s => ((0, "4"), s)
  checkGpio := fun s => ((0, 7, 4), s)

/-- A mock capability whose edge reads consume a queue of scripted
`(ret, buf)` responses (state is the remaining queue); every other call
succeeds, direction reads return `"out"`, value reads return `"1"`. -/
def edgeQueueCap : Cap (List (Int × String)) where
  activate := fun _ s => (0, s)
  activateMulti := fun _ _ _ s => (0, s)
  deactivate := fun _ s => (0, s)
  deactivateMulti := fun _ _ _ s => (0, s)
  getDirection := fun _ s => ((0, "out"), s)
  setDirection := fun _ _ s => (0, s)
  getValue := fun _ s => ((0, "1"), s)
  setValue := fun _ _ s => (0, s)
  getEdge := fun _ s => (s.headD (0, "both"), s.tail)
  setEdge := fun _ _ s => (0, s)
  getCount := fun _ s => ((0, "4"), s)
  checkGpio := fun s => ((0, 7, 4), s)

/-- A mock capability whose direction reads consume a queue of scripted
`(ret, buf)` responses; every other call succeeds. -/
def dirQueueCap : Cap (List (Int × String)) where
  activate := fun _ s => (0, s)
  activateMulti := fun _ _ _ s => (0, s)
  deactivate := fun _ s => (0, s)
  deactivateMulti := fun _ _ _ s => (0, s)
  getDirection := fun _ s => (s.headD (0, "in"), s.tail)
  setDirection := fun _ _ s => (0, s)
  getValue := fun _ s => ((0, "1"), s)
  setValue := fun _ _ s => (0, s)
  getEdge := fun _ s => ((0, "both"), s)
  setEdge := fun _ _ s => (0, s)
  getCount := fun _ s => ((0, "4"), s)
  checkGpio := fun s => ((0, 7, 4), s)

/-- Override a capability so both deactivation entry points return `e`. -/
def withDeactErr {σ : Type} (cap : Cap σ) (e : Int) : Cap σ :=
  { cap with
    deactivate := fun _ s => (e, s)
    deactivateMulti := fun _ _ _ s => (e, s) }

/-- Override a capability so value reads always return `(e, v)`. -/
def withGetValueConst {σ : Type} (cap : Cap σ) (e : Int) (v : String) : Cap σ :=
  { cap with getValue := fun _ s => ((e, v), s) }

/-- Override a capability so direction reads always return `(e, v)`. -/
def withGetDirectionConst {σ : Type} (cap : Cap σ) (e : Int) (v : String) :
    Cap σ :=
  { cap with getDirection := fun _ s => ((e, v), s) }

/-- Build an execution context. -/
def mkInfo (cid : Nat) (t : String) (p1 p2 p3 bp mc : Nat) : GpioAppInfo :=
  { case_id := cid, base_pin := bp, max_count := mc,
    gpio_pin1 := p1, gpio_pin2 := p2, gpio_pin3 := p3, num_type := t }

end Mocks

section TraceProjections

/-- Lines targeted by an activation event. -/
def actTargets (c : CapCall) : List Nat :=
  match c with
  | CapCall.activate p => [p]
  | CapCall.activateMulti p q u => [p, q, u]
  | _ => []

/-- Lines targeted by a deactivation event. -/
def deactTargets (c : CapCall) : List Nat :=
  match c with
  | CapCall.deactivate p => [p]
  | CapCall.deactivateMulti p q u => [p, q, u]
  | _ => []

/-- All lines activated along a trace, in call order. -/
def activatedLines (l : List CapCall) : List Nat :=
  l.foldr (fun c acc => actTargets c ++ acc) []

/-- All lines deactivated along a trace, in call order. -/
def deactivatedLines (l : List CapCall) : List Nat :=
  l.foldr (fun c acc => deactTargets c ++ acc) []

end TraceProjections

section Lemmas

variable {σ : Type}

lemma isType_ne {t : String} {c d : Char} (h : isType t c = true)
    (hne : c ≠ d) : isType t d = false := by
  simp only [isType, beq_iff_eq] at h
  simp only [isType, beq_eq_false_iff_ne, ne_eq, h, List.cons.injEq, and_true]
  exact fun hc => hne hc

lemma activatedLines_append (l1 l2 : List CapCall) :
    activatedLines (l1 ++ l2) = activatedLines l1 ++ activatedLines l2 := by
  induction l1 with
  | nil => simp [activatedLines]
  | cons hd tl ih => simp [activatedLines, List.foldr] at ih ⊢; simp [ih]

lemma deactivatedLines_append (l1 l2 : List CapCall) :
    deactivatedLines (l1 ++ l2) = deactivatedLines l1 ++ deactivatedLines l2 := by
  induction l1 with
  | nil => simp [deactivatedLines]
  | cons hd tl ih => simp [deactivatedLines, List.foldr] at ih ⊢; simp [ih]

lemma activatedLines_map_activate (b : Nat) (xs : List Nat) :
    activatedLines (xs.map fun i => CapCall.activate (b + i)) =
      xs.map (fun i => b + i) := by
  induction xs with
  | nil => simp [activatedLines]
  | cons hd tl ih => simp [activatedLines, actTargets, List.foldr] at ih ⊢; simp [ih]

lemma deactivatedLines_map_deactivate (b : Nat) (xs : List Nat) :
    deactivatedLines (xs.map fun i => CapCall.deactivate (b + i)) =
      xs.map (fun i => b + i) := by
  induction xs with
  | nil => simp [deactivatedLines]
  | cons hd tl ih =>
    simp [deactivatedLines, deactTargets, List.foldr] at ih ⊢; simp [ih]

lemma activatedLines_map_getDirection (b : Nat) (xs : List Nat) :
    activatedLines (xs.map fun i => CapCall.getDirection (b + i)) = [] := by
  induction xs with
  | nil => simp [activatedLines]
  | cons hd tl ih => simp [activatedLines, actTargets, List.foldr] at ih ⊢; simp [ih]

lemma deactivatedLines_map_getDirection (b : Nat) (xs : List Nat) :
    deactivatedLines (xs.map fun i => CapCall.getDirection (b + i)) = [] := by
  induction xs with
  | nil => simp [deactivatedLines]
  | cons hd tl ih =>
    simp [deactivatedLines, deactTargets, List.foldr] at ih ⊢; simp [ih]

/-- A `for` loop whose body performs exactly one capability call per iteration
appends the corresponding events in index order. -/
lemma foldl_range_trace (f : Int × RunSt σ → Nat → Int × RunSt σ)
    (g : Nat → CapCall)
    (hf : ∀ x i, ((f x i).2).trace = x.2.trace ++ [g i]) :
    ∀ (N : Nat) (x : Int × RunSt σ),
      (((List.range N).foldl f x).2).trace =
        x.2.trace ++ (List.range N).map g := by
  intro N
  induction N with
  | zero => intro x; simp
  | succ n ih =>
    intro x
    rw [List.range_succ, List.foldl_append, List.map_append]
    simp [List.foldl, hf, ih, List.append_assoc]

lemma activatedLines_nil : activatedLines [] = [] := rfl

lemma deactivatedLines_nil : deactivatedLines [] = [] := rfl

lemma activatedLines_map_deactivate (b : Nat) (xs : List Nat) :
    activatedLines (xs.map fun i => CapCall.deactivate (b + i)) = [] := by
  induction xs with
  | nil => simp [activatedLines]
  | cons hd tl ih => simp [activatedLines, actTargets, List.foldr] at ih ⊢; simp [ih]

lemma deactivatedLines_map_activate (b : Nat) (xs : List Nat) :
    deactivatedLines (xs.map fun i => CapCall.activate (b + i)) = [] := by
  induction xs with
  | nil => simp [deactivatedLines]
  | cons hd tl ih =>
    simp [deactivatedLines, deactTargets, List.foldr] at ih ⊢; simp [ih]

/-- Calls made by `ARA_264_multiple_activate` under `'m'` addressing. -/
lemma ARA_264_trace_m (cap : Cap σ) (info : GpioAppInfo) (s : σ)
    (h : isType info.num_type 'm' = true) :
    (ARA_264_multiple_activate cap info (RunSt.init s)).2.trace =
      [CapCall.activateMulti (info.base_pin + info.gpio_pin1)
        (info.base_pin + info.gpio_pin2) (info.base_pin + info.gpio_pin3),
       CapCall.deactivateMulti (info.base_pin + info.gpio_pin1)
        (info.base_pin + info.gpio_pin2) (info.base_pin + info.gpio_pin3)] := by
  simp [ARA_264_multiple_activate, doActivateMulti, doDeactivateMulti,
    print_test_result, RunSt.init, h]

/-- Calls made by `ARA_264_multiple_activate` under `'s'` addressing. -/
lemma ARA_264_trace_s (cap : Cap σ) (info : GpioAppInfo) (s : σ)
    (h : isType info.num_type 's' = true) :
    (ARA_264_multiple_activate cap info (RunSt.init s)).2.trace =
      [CapCall.activate (info.base_pin + info.gpio_pin1),
       CapCall.deactivate (info.base_pin + info.gpio_pin1)] := by
  have hm : isType info.num_type 'm' = false := isType_ne h (by decide)
  simp [ARA_264_multiple_activate, doActivate, doDeactivate, print_test_result,
    RunSt.init, h, hm]

/-- `ARA_264_multiple_activate` makes no calls under an unsupported mode. -/
lemma ARA_264_trace_none (cap : Cap σ) (info : GpioAppInfo) (s : σ)
    (hm : isType info.num_type 'm' = false)
    (hs : isType info.num_type 's' = false) :
    (ARA_264_multiple_activate cap info (RunSt.init s)).2.trace = [] := by
  simp [ARA_264_multiple_activate, print_test_result, RunSt.init, hm, hs]

/-- Calls made by `ARA_272_all_direction` under `'a'` addressing: ascending
sweeps of activate, get-direction and deactivate over
`base_pin .. base_pin + max_count - 1`. -/
lemma ARA_272_trace_a (cap : Cap σ) (info : GpioAppInfo)
    (r : RunSt σ) (h : isType info.num_type 'a' = true) :
    (ARA_272_all_direction cap info r).2.trace =
      r.trace
        ++ (List.range info.max_count).map
            (fun i => CapCall.activate (info.base_pin + i))
        ++ (List.range info.max_count).map
            (fun i => CapCall.getDirection (info.base_pin + i))
        ++ (List.range info.max_count).map
            (fun i => CapCall.deactivate (info.base_pin + i)) := by
  have hA := foldl_range_trace (σ := σ)
      (fun a i => doActivate cap (info.base_pin + i) a.2)
      (fun i => CapCall.activate (info.base_pin + i))
      (fun x i => by simp [doActivate]) info.max_count
  have hG := foldl_range_trace (σ := σ)
      (fun a i =>
        ((doGetDirection cap (info.base_pin + i) a.2).1.1,
         (doGetDirection cap (info.base_pin + i) a.2).2))
      (fun i => CapCall.getDirection (info.base_pin + i))
      (fun x i => by simp [doGetDirection]) info.max_count
  have hD := foldl_range_trace (σ := σ)
      (fun a i => doDeactivate cap (info.base_pin + i) a.2)
      (fun i => CapCall.deactivate (info.base_pin + i))
      (fun x i => by simp [doDeactivate]) info.max_count
  simp [ARA_272_all_direction, h, check_step_result, print_test_result,
    hA, hG, hD, List.append_assoc]

/-- Calls made by `ARA_272_all_direction` under `'m'` addressing. -/
lemma ARA_272_trace_m (cap : Cap σ) (info : GpioAppInfo) (s : σ)
    (h : isType info.num_type 'm' = true) :
    (ARA_272_all_direction cap info (RunSt.init s)).2.trace =
      [CapCall.activateMulti (info.base_pin + info.gpio_pin1)
        (info.base_pin + info.gpio_pin2) (info.base_pin + info.gpio_pin3),
       CapCall.getDirection (info.base_pin + info.gpio_pin1),
       CapCall.getDirection (info.base_pin + info.gpio_pin2),
       CapCall.getDirection (info.base_pin + info.gpio_pin3),
       CapCall.deactivateMulti (info.base_pin + info.gpio_pin1)
        (info.base_pin + info.gpio_pin2) (info.base_pin + info.gpio_pin3)] := by
  have ha : isType info.num_type 'a' = false := isType_ne h (by decide)
  simp [ARA_272_all_direction, doActivateMulti, doDeactivateMulti,
    doGetDirection, check_step_result, print_test_result, RunSt.init, h, ha]

/-- Calls made by `ARA_272_all_direction` under `'s'` addressing. -/
lemma ARA_272_trace_s (cap : Cap σ) (info : GpioAppInfo) (s : σ)
    (h : isType info.num_type 's' = true) :
    (ARA_272_all_direction cap info (RunSt.init s)).2.trace =
      [CapCall.activate (info.base_pin + info.gpio_pin1),
       CapCall.getDirection (info.base_pin + info.gpio_pin1),
       CapCall.deactivate (info.base_pin + info.gpio_pin1)] := by
  have ha : isType info.num_type 'a' = false := isType_ne h (by decide)
  have hm : isType info.num_type 'm' = false := isType_ne h (by decide)
  simp [ARA_272_all_direction, doActivate, doDeactivate, doGetDirection,
    check_step_result, print_test_result, RunSt.init, h, ha, hm]

/-- `ARA_272_all_direction` makes no calls under an unsupported mode. -/
lemma ARA_272_trace_none (cap : Cap σ) (info : GpioAppInfo) (s : σ)
    (ha : isType info.num_type 'a' = false)
    (hm : isType info.num_type 'm' = false)
    (hs : isType info.num_type 's' = false) :
    (ARA_272_all_direction cap info (RunSt.init s)).2.trace = [] := by
  simp [ARA_272_all_direction, check_step_result, print_test_result,
    RunSt.init, ha, hm, hs]

/-- `switch_case_number` on an unrecognized case identifier: `-EINVAL`, state
untouched. -/
lemma switch_case_number_unknown (cap : Cap σ) (info : GpioAppInfo)
    (r : RunSt σ) (h : info.case_id ∉ recognizedCaseIds) :
    switch_case_number cap info r = (-EINVAL, r) := by
  simp only [recognizedCaseIds, List.mem_cons, List.not_mem_nil, or_false,
    not_or] at h
  obtain ⟨h1, h2, h3, h4, h5, h6, h7, h8, h9, h10, h11, h12, h13, h14, h15,
    h16, h17, h18, h19, h20, h21, h22, h23⟩ := h
  simp [switch_case_number, h1, h2, h3, h4, h5, h6, h7, h8, h9, h10, h11, h12,
    h13, h14, h15, h16, h17, h18, h19, h20, h21, h22, h23]

end Lemmas

section Claims

variable {σ : Type}

/-- C1: the final reported case result (the value passed to
`print_test_result`) is the result of the last executed verification-producing
step before the recovery phase, not the logical AND of all step results.
First conjunct: in `ARA_416_none_to_both` (case 416), for arbitrary scripted
outcomes of the two edge reads, the printed result depends only on the second
(final) read - the intermediate `"none"` verification is executed but cannot
affect it.  Second conjunct: with a capability whose edge reads always return
`"both"`, the `"none"` verification mismatches (a nonzero result reaches
`check_step_result`) yet the final printed result is a pass (`0`).  Third
conjunct: the same last-write-wins behaviour in the `'m'` branch of
`ARA_273_multiple_input` (case 273): only the third direction read determines
the printed result. -/
theorem C1_last_verification_wins :
    (∀ (e1 e2 : Int) (v1 v2 : String),
      (ARA_416_none_to_both edgeQueueCap (mkInfo 416 "s" 1 2 3 0 4)
        (RunSt.init [(e1, v1), (e2, v2)])).2.printed =
        [(416, if e2 = 0 then strcmp v2 "both" else e2)])
  ∧ ((ARA_416_none_to_both (constCap "out" "1" "both") (mkInfo 416 "s" 1 2 3 0 4)
        (RunSt.init ())).2.printed = [(416, 0)]
     ∧ (416, strcmp "both" "none") ∈
        (ARA_416_none_to_both (constCap "out" "1" "both") (mkInfo 416 "s" 1 2 3 0 4)
          (RunSt.init ())).2.checked
     ∧ strcmp "both" "none" ≠ 0)
  ∧ (∀ (e1 e2 e3 : Int) (v1 v2 v3 : String),
      (ARA_273_multiple_input dirQueueCap (mkInfo 273 "m" 1 2 3 0 4)
        (RunSt.init [(e1, v1), (e2, v2), (e3, v3)])).2.printed =
        [(273, if e3 = 0 then strcmp v3 "in" else e3)]) := by
  refine ⟨?_, ⟨by decide, by decide, by decide⟩, ?_⟩
  · intro e1 e2 v1 v2
    have hs : isType "s" 's' = true := by decide
    have hm : isType "s" 'm' = false := by decide
    simp [ARA_416_none_to_both, edgeTransScenario, edgeQueueCap, mkInfo,
      RunSt.init, doActivate, doSetDirection, doSetValue, doSetEdge, doGetEdge,
      doDeactivate, check_step_result, print_test_result, verify, hs, hm]
  · intro e1 e2 e3 v1 v2 v3
    have hm : isType "m" 'm' = true := by decide
    have hs : isType "m" 's' = false := by decide
    simp [ARA_273_multiple_input, dirVerifyScenario, dirQueueCap, mkInfo,
      RunSt.init, doActivateMulti, doSetDirection, doGetDirection,
      doDeactivateMulti, check_step_result, print_test_result, verify, hm, hs]

/-- C2 counterexample: with a capability on which every main-sequence call
succeeds but deactivation fails with `-5`, case 270 prints the aggregated
main-sequence result `0` (pass), yet the scenario - and hence `main`, whose
return value is the process exit status - returns `-5`: the recovery-phase
failure overrides the main result, contradicting the claim. -/
theorem C2_counterexample_recovery_overrides_return :
    (main_run (withDeactErr (constCap "out" "1" "both") (-5))
        (mkInfo 270 "s" 1 2 3 0 0) (RunSt.init ())).2.printed = [(270, 0)]
  ∧ (main_run (withDeactErr (constCap "out" "1" "both") (-5))
        (mkInfo 270 "s" 1 2 3 0 0) (RunSt.init ())).1 = -5
  ∧ (ARA_270_multiple_direction (withDeactErr (constCap "out" "1" "both") (-5))
        (mkInfo 270 "s" 1 2 3 7 4) (RunSt.init ())).1 = -5
  ∧ ((-5 : Int) ≠ 0) := ⟨by decide, by decide, by decide, by decide⟩

/-- C2 amended: the reported (printed) case result is finalized by the main
sequence before the recovery phase, and the recovery phase never prints;
however, the value the scenario returns - which `main` propagates as the
process exit status - is the result of the recovery phase's deactivate
call(s), not the aggregated main-sequence result.  Stated for `ARA_270`, the
scenario the claim cites: the scenario is exactly its main phase followed by
its recovery phase, and the recovery phase leaves `printed` untouched. -/
theorem C2_amended_return_is_recovery_result :
    (∀ (cap : Cap σ) (info : GpioAppInfo) (r : RunSt σ),
      ARA_270_multiple_direction cap info r =
        ARA_270_recoveryPhase cap info (ARA_270_mainPhase cap info r).2)
  ∧ (∀ (cap : Cap σ) (info : GpioAppInfo) (r : RunSt σ),
      (ARA_270_recoveryPhase cap info r).2.printed = r.printed) := by
  constructor
  · intro cap info r
    rfl
  · intro cap info r
    cases hm : isType info.num_type 'm' with
    | true => simp [ARA_270_recoveryPhase, doDeactivateMulti, hm]
    | false =>
      cases hs : isType info.num_type 's' with
      | true => simp [ARA_270_recoveryPhase, doDeactivate, hm, hs]
      | false => simp [ARA_270_recoveryPhase, hm, hs]

/-- C3 counterexample: under `'a'` addressing with a discovered line count of
`0`, case 272 does not fail with `InvalidAddressing`: it performs zero
capability calls, prints a pass (`0`) and returns `0`, not `-EINVAL`. -/
theorem C3_counterexample_zero_count_passes :
    (ARA_272_all_direction (constCap "out" "1" "both") (mkInfo 272 "a" 1 2 3 5 0)
        (RunSt.init ())).1 = 0
  ∧ (ARA_272_all_direction (constCap "out" "1" "both") (mkInfo 272 "a" 1 2 3 5 0)
        (RunSt.init ())).2.trace = []
  ∧ (ARA_272_all_direction (constCap "out" "1" "both") (mkInfo 272 "a" 1 2 3 5 0)
        (RunSt.init ())).2.printed = [(272, 0)]
  ∧ ((0 : Int) ≠ -EINVAL) := ⟨by decide, by decide, by decide, by decide⟩

/-- C3 amended: under All addressing (`'a'`), case 272 operates on exactly the
lines `base_pin, base_pin+1, ..., base_pin+max_count-1` in ascending order
(activation sweep, then direction-read sweep, then deactivation sweep); when
the discovered `max_count` is `0` the scenario performs no capability calls
and reports and returns success (`0`) instead of failing with
`InvalidAddressing`. -/
theorem C3_amended_all_mode_lines (cap : Cap σ) (info : GpioAppInfo)
    (r : RunSt σ) (h : isType info.num_type 'a' = true) :
    ((ARA_272_all_direction cap info r).2.trace =
      r.trace
        ++ (List.range info.max_count).map
            (fun i => CapCall.activate (info.base_pin + i))
        ++ (List.range info.max_count).map
            (fun i => CapCall.getDirection (info.base_pin + i))
        ++ (List.range info.max_count).map
            (fun i => CapCall.deactivate (info.base_pin + i)))
  ∧ (info.max_count = 0 →
      ARA_272_all_direction cap info r =
        (0, { r with checked := r.checked ++ [(info.case_id, 0)],
                     printed := r.printed ++ [(info.case_id, 0)] })) := by
  constructor
  · exact ARA_272_trace_a cap info r h
  · intro h0
    obtain ⟨d, t, ck, p⟩ := r
    simp [ARA_272_all_direction, h, h0, check_step_result, print_test_result]

/-- Witness for `C3_amended_all_mode_lines`: with base pin 5 and two lines the
sweep covers lines 5 and 6 in order; with zero lines the scenario makes no
call and reports `0`. -/
theorem C3_amended_all_mode_lines_witness :
    ((ARA_272_all_direction (constCap "out" "1" "both") (mkInfo 272 "a" 1 2 3 5 2)
        (RunSt.init ())).2.trace =
      [CapCall.activate 5, CapCall.activate 6, CapCall.getDirection 5,
       CapCall.getDirection 6, CapCall.deactivate 5, CapCall.deactivate 6])
  ∧ (ARA_272_all_direction (constCap "out" "1" "both") (mkInfo 272 "a" 1 2 3 5 0)
        (RunSt.init ()) =
      (0, { RunSt.init () with checked := [(272, 0)], printed := [(272, 0)] })) := by
  constructor
  · have h := (C3_amended_all_mode_lines (constCap "out" "1" "both")
      (mkInfo 272 "a" 1 2 3 5 2) (RunSt.init ()) (by decide)).1
    rw [h]; decide
  · have h := (C3_amended_all_mode_lines (constCap "out" "1" "both")
      (mkInfo 272 "a" 1 2 3 5 0) (RunSt.init ()) (by decide)).2 (by decide)
    rw [h]; decide

/-- C4: for every case identifier outside the recognized set,
`switch_case_number` returns `-EINVAL` (the UnknownCase error) with the run
state - in particular the capability-call trace - completely unchanged: zero
capability calls are performed. -/
theorem C4_unknown_case_rejected (cap : Cap σ) (info : GpioAppInfo)
    (r : RunSt σ) (h : info.case_id ∉ recognizedCaseIds) :
    switch_case_number cap info r = (-EINVAL, r) :=
  switch_case_number_unknown cap info r h

/-- Witness for `C4_unknown_case_rejected` at case identifier 999. -/
theorem C4_unknown_case_rejected_witness :
    switch_case_number (constCap "out" "1" "both") (mkInfo 999 "s" 1 2 3 0 4)
      (RunSt.init ()) = (-EINVAL, RunSt.init ()) :=
  C4_unknown_case_rejected _ _ _ (by decide)

/-- C5: running the single-only repeated-direction scenario (case 271) with
any unsupported addressing mode makes every step yield `-EINVAL`
(InvalidAddressing), reaches the recovery phase, and completes without a
single capability call: the device state and trace are untouched, and the
recorded intermediate and printed results are all `-EINVAL`, which is also the
returned value. -/
theorem C5_unsupported_mode_no_calls (cap : Cap σ) (info : GpioAppInfo)
    (r : RunSt σ) (h : isType info.num_type 's' = false) :
    ARA_271_multiple_times_direction cap info r =
      (-EINVAL,
        { r with checked := r.checked ++ [(info.case_id, -EINVAL)],
                 printed := r.printed ++ [(info.case_id, -EINVAL)] }) := by
  obtain ⟨d, t, ck, p⟩ := r
  have h10 : List.range 10 = [0, 1, 2, 3, 4, 5, 6, 7, 8, 9] := rfl
  simp [ARA_271_multiple_times_direction, check_step_result, print_test_result,
    h, h10, List.foldl_cons, List.foldl_nil]

/-- Witness for `C5_unsupported_mode_no_calls`: case 271 under mode `"m"`. -/
theorem C5_unsupported_mode_no_calls_witness :
    ARA_271_multiple_times_direction (constCap "out" "1" "both")
      (mkInfo 271 "m" 1 2 3 0 4) (RunSt.init ()) =
    (-EINVAL,
      { RunSt.init () with checked := [(271, -EINVAL)],
                           printed := [(271, -EINVAL)] }) := by
  have h := C5_unsupported_mode_no_calls (constCap "out" "1" "both")
    (mkInfo 271 "m" 1 2 3 0 4) (RunSt.init ()) (by decide)
  rw [h]; decide

/-- C6: addressing resolution is base-relative and order-preserving, and mode
tags are case-insensitive.  In `ARA_264_multiple_activate`: under Single mode
the trace targets exactly the one line `base_pin + gpio_pin1`; under Multiple
mode it targets exactly the three lines `base_pin+o1, base_pin+o2, base_pin+o3`
in that order with no de-duplication (the offsets are arbitrary and may
coincide); and running with upper-case tags `"S"`/`"M"` is indistinguishable
from `"s"`/`"m"` (likewise `"A"`/`"a"` for `ARA_272_all_direction`). -/
theorem C6_addressing_resolution :
    (∀ (cap : Cap σ) (info : GpioAppInfo) (s : σ),
      isType info.num_type 's' = true →
      (ARA_264_multiple_activate cap info (RunSt.init s)).2.trace =
        [CapCall.activate (info.base_pin + info.gpio_pin1),
         CapCall.deactivate (info.base_pin + info.gpio_pin1)])
  ∧ (∀ (cap : Cap σ) (info : GpioAppInfo) (s : σ),
      isType info.num_type 'm' = true →
      (ARA_264_multiple_activate cap info (RunSt.init s)).2.trace =
        [CapCall.activateMulti (info.base_pin + info.gpio_pin1)
          (info.base_pin + info.gpio_pin2) (info.base_pin + info.gpio_pin3),
         CapCall.deactivateMulti (info.base_pin + info.gpio_pin1)
          (info.base_pin + info.gpio_pin2) (info.base_pin + info.gpio_pin3)])
  ∧ (∀ (cap : Cap σ) (info : GpioAppInfo) (r : RunSt σ),
      ARA_264_multiple_activate cap { info with num_type := "S" } r =
        ARA_264_multiple_activate cap { info with num_type := "s" } r)
  ∧ (∀ (cap : Cap σ) (info : GpioAppInfo) (r : RunSt σ),
      ARA_264_multiple_activate cap { info with num_type := "M" } r =
        ARA_264_multiple_activate cap { info with num_type := "m" } r)
  ∧ (∀ (cap : Cap σ) (info : GpioAppInfo) (r : RunSt σ),
      ARA_272_all_direction cap { info with num_type := "A" } r =
        ARA_272_all_direction cap { info with num_type := "a" } r) := by
  refine ⟨fun cap info s h => ARA_264_trace_s cap info s h,
          fun cap info s h => ARA_264_trace_m cap info s h, ?_, ?_, ?_⟩
  · intro cap info r
    simp [ARA_264_multiple_activate,
      show isType "S" 'm' = false from by decide,
      show isType "s" 'm' = false from by decide,
      show isType "S" 's' = true from by decide,
      show isType "s" 's' = true from by decide]
  · intro cap info r
    simp [ARA_264_multiple_activate,
      show isType "M" 'm' = true from by decide,
      show isType "m" 'm' = true from by decide]
  · intro cap info r
    simp [ARA_272_all_direction,
      show isType "A" 'a' = true from by decide,
      show isType "a" 'a' = true from by decide]

/-- Witness for `C6_addressing_resolution`: base pin 10; Single mode with
offset 1 targets line 11; Multiple mode with the coinciding offsets 3, 3 and
offset 5 targets lines 13, 13, 15 in order without de-duplication; `"S"` runs
exactly as `"s"`. -/
theorem C6_addressing_resolution_witness :
    ((ARA_264_multiple_activate (constCap "out" "1" "both")
        (mkInfo 264 "s" 1 2 3 10 4) (RunSt.init ())).2.trace =
      [CapCall.activate 11, CapCall.deactivate 11])
  ∧ ((ARA_264_multiple_activate (constCap "out" "1" "both")
        (mkInfo 264 "m" 3 3 5 10 4) (RunSt.init ())).2.trace =
      [CapCall.activateMulti 13 13 15, CapCall.deactivateMulti 13 13 15])
  ∧ (ARA_264_multiple_activate (constCap "out" "1" "both")
        { mkInfo 264 "q" 1 2 3 10 4 with num_type := "S" } (RunSt.init ()) =
      ARA_264_multiple_activate (constCap "out" "1" "both")
        { mkInfo 264 "q" 1 2 3 10 4 with num_type := "s" } (RunSt.init ())) := by
  refine ⟨?_, ?_, ?_⟩
  · have h := C6_addressing_resolution.1 (constCap "out" "1" "both")
      (mkInfo 264 "s" 1 2 3 10 4) () (by decide)
    rw [h]; decide
  · have h := C6_addressing_resolution.2.1 (constCap "out" "1" "both")
      (mkInfo 264 "m" 3 3 5 10 4) () (by decide)
    rw [h]; decide
  · exact C6_addressing_resolution.2.2.1 (constCap "out" "1" "both")
      (mkInfo 264 "q" 1 2 3 10 4) (RunSt.init ())

/-- C7: in the repeated set-direction scenario (case 274) under Single mode,
the capability trace is exactly one activation of `base_pin + gpio_pin1`
followed by ten set-direction calls writing `"in"` to that same line, then
exactly one direction read of that line (whose result is verified against the
written literal `"in"` to produce the printed result), then the recovery
deactivation. -/
theorem C7_repeated_set_direction (cap : Cap σ) (info : GpioAppInfo) (s : σ)
    (h : isType info.num_type 's' = true) :
    (ARA_274_multiple_times_input cap info (RunSt.init s)).2.trace =
      [CapCall.activate (info.base_pin + info.gpio_pin1)]
        ++ List.replicate 10
            (CapCall.setDirection (info.base_pin + info.gpio_pin1) "in")
        ++ [CapCall.getDirection (info.base_pin + info.gpio_pin1)]
        ++ [CapCall.deactivate (info.base_pin + info.gpio_pin1)] := by
  have h10 : List.range 10 = [0, 1, 2, 3, 4, 5, 6, 7, 8, 9] := rfl
  have hrep :
      List.replicate 10
          (CapCall.setDirection (info.base_pin + info.gpio_pin1) "in") =
        List.map
          (fun _ => CapCall.setDirection (info.base_pin + info.gpio_pin1) "in")
          (List.range 10) := by
    rw [h10]; rfl
  rw [hrep]
  simp [ARA_274_multiple_times_input, dirRepeatScenario, h, doActivate,
    doSetDirection, doGetDirection, doDeactivate, check_step_result,
    print_test_result, RunSt.init, h10, List.foldl_cons, List.foldl_nil,
    List.append_assoc]

/-- Witness for `C7_repeated_set_direction`: base pin 10, offset 1. -/
theorem C7_repeated_set_direction_witness :
    (ARA_274_multiple_times_input (constCap "in" "1" "both")
        (mkInfo 274 "s" 1 2 3 10 4) (RunSt.init ())).2.trace =
      [CapCall.activate 11,
       CapCall.setDirection 11 "in", CapCall.setDirection 11 "in",
       CapCall.setDirection 11 "in", CapCall.setDirection 11 "in",
       CapCall.setDirection 11 "in", CapCall.setDirection 11 "in",
       CapCall.setDirection 11 "in", CapCall.setDirection 11 "in",
       CapCall.setDirection 11 "in", CapCall.setDirection 11 "in",
       CapCall.getDirection 11, CapCall.deactivate 11] := by
  have h := C7_repeated_set_direction (constCap "in" "1" "both")
    (mkInfo 274 "s" 1 2 3 10 4) () (by decide)
  rw [h]; decide

/-- C8: every scenario that activates lines attempts to deactivate exactly the
lines it activated, for every capability behaviour (so in particular when
intermediate calls or verifications fail) and every addressing mode: in both
cited scenarios (cases 264 and 272) the multiset-free, order-preserving list
of activated lines in the trace equals the list of deactivated lines. -/
theorem C8_activation_deactivation_matched (cap : Cap σ) (info : GpioAppInfo)
    (s : σ) :
    (activatedLines
        (ARA_264_multiple_activate cap info (RunSt.init s)).2.trace =
      deactivatedLines
        (ARA_264_multiple_activate cap info (RunSt.init s)).2.trace)
  ∧ (activatedLines
        (ARA_272_all_direction cap info (RunSt.init s)).2.trace =
      deactivatedLines
        (ARA_272_all_direction cap info (RunSt.init s)).2.trace) := by
  constructor
  · cases hm : isType info.num_type 'm' with
    | true =>
      rw [ARA_264_trace_m cap info s hm]
      simp [activatedLines, deactivatedLines, actTargets, deactTargets]
    | false =>
      cases hs : isType info.num_type 's' with
      | true =>
        rw [ARA_264_trace_s cap info s hs]
        simp [activatedLines, deactivatedLines, actTargets, deactTargets]
      | false =>
        rw [ARA_264_trace_none cap info s hm hs]
        simp [activatedLines, deactivatedLines]
  · cases ha : isType info.num_type 'a' with
    | true =>
      rw [ARA_272_trace_a cap info (RunSt.init s) ha]
      simp only [RunSt.init, List.nil_append, activatedLines_append,
        deactivatedLines_append, activatedLines_map_activate,
        deactivatedLines_map_deactivate, activatedLines_map_getDirection,
        deactivatedLines_map_getDirection, activatedLines_map_deactivate,
        deactivatedLines_map_activate, List.append_nil]
    | false =>
      cases hm : isType info.num_type 'm' with
      | true =>
        rw [ARA_272_trace_m cap info s hm]
        simp [activatedLines, deactivatedLines, actTargets, deactTargets]
      | false =>
        cases hs : isType info.num_type 's' with
        | true =>
          rw [ARA_272_trace_s cap info s hs]
          simp [activatedLines, deactivatedLines, actTargets, deactTargets]
        | false =>
          rw [ARA_272_trace_none cap info s ha hm hs]
          simp [activatedLines, deactivatedLines]

/-- C9: a verification comparison runs only when the preceding get call
returned `0`; on a failing get, the capability error code itself is the step's
result and no mismatch is ever reported.  First conjunct: in
`ARA_281_set_value_high`, if the value read returns error `e` with arbitrary
buffer contents `v`, the printed result is exactly `e`, independent of `v`.
Second conjunct: the same for the failing direction reads of
`ARA_273_multiple_input` under Multiple mode. -/
theorem C9_verification_gated_on_get :
    (∀ (cap : Cap σ) (info : GpioAppInfo) (r : RunSt σ) (e : Int) (v : String),
      isType info.num_type 's' = true → e ≠ 0 →
      (ARA_281_set_value_high (withGetValueConst cap e v) info r).2.printed =
        r.printed ++ [(info.case_id, e)])
  ∧ (∀ (cap : Cap σ) (info : GpioAppInfo) (r : RunSt σ) (e : Int) (v : String),
      isType info.num_type 'm' = true → e ≠ 0 →
      (ARA_273_multiple_input (withGetDirectionConst cap e v) info r).2.printed =
        r.printed ++ [(info.case_id, e)]) := by
  constructor
  · intro cap info r e v h he
    simp [ARA_281_set_value_high, valueScenario, withGetValueConst, h, he,
      doActivate, doSetDirection, doSetValue, doGetDirection, doGetValue,
      doDeactivate, check_step_result, print_test_result, verify]
  · intro cap info r e v h he
    have hs : isType info.num_type 's' = false := isType_ne h (by decide)
    simp [ARA_273_multiple_input, dirVerifyScenario, withGetDirectionConst,
      h, hs, he, doActivateMulti, doSetDirection, doGetDirection,
      doDeactivateMulti, check_step_result, print_test_result, verify]

/-- Witness for `C9_verification_gated_on_get`: a value read failing with `-7`
while the buffer spuriously holds the expected `"1"` still reports `-7`. -/
theorem C9_verification_gated_on_get_witness :
    ((ARA_281_set_value_high
        (withGetValueConst (constCap "out" "1" "both") (-7) "1")
        (mkInfo 281 "s" 1 2 3 0 4) (RunSt.init ())).2.printed = [(281, -7)])
  ∧ ((ARA_273_multiple_input
        (withGetDirectionConst (constCap "in" "1" "both") (-7) "in")
        (mkInfo 273 "m" 1 2 3 0 4) (RunSt.init ())).2.printed = [(273, -7)]) := by
  constructor
  · have h := C9_verification_gated_on_get.1 (constCap "out" "1" "both")
      (mkInfo 281 "s" 1 2 3 0 4) (RunSt.init ()) (-7) "1" (by decide) (by decide)
    rw [h]; decide
  · have h := C9_verification_gated_on_get.2 (constCap "in" "1" "both")
      (mkInfo 273 "m" 1 2 3 0 4) (RunSt.init ()) (-7) "in" (by decide) (by decide)
    rw [h]; decide

/-- C10: an unrecognized case identifier and an unsupported addressing mode
produce the identical numeric error result `-EINVAL`, so the scenario return
value (and hence the process exit status) does not distinguish the UnknownCase
error kind from the InvalidAddressing error kind. -/
theorem C10_unknown_case_and_invalid_mode_same_error (cap : Cap σ)
    (r : RunSt σ) (info bad : GpioAppInfo)
    (h : info.case_id ∉ recognizedCaseIds)
    (hm : isType bad.num_type 'm' = false)
    (hs : isType bad.num_type 's' = false) :
    (switch_case_number cap info r).1 = -EINVAL
  ∧ (ARA_264_multiple_activate cap bad r).1 = -EINVAL
  ∧ (switch_case_number cap info r).1 =
      (ARA_264_multiple_activate cap bad r).1 := by
  have h1 : (switch_case_number cap info r).1 = -EINVAL := by
    rw [switch_case_number_unknown cap info r h]
  have h2 : (ARA_264_multiple_activate cap bad r).1 = -EINVAL := by
    simp [ARA_264_multiple_activate, hm, hs, print_test_result]
  exact ⟨h1, h2, h1.trans h2.symm⟩

/-- Witness for `C10_unknown_case_and_invalid_mode_same_error`: case 999
versus case 264 run with the unsupported mode tag `"x"`. -/
theorem C10_unknown_case_and_invalid_mode_same_error_witness :
    (switch_case_number (constCap "out" "1" "both") (mkInfo 999 "s" 1 2 3 0 4)
        (RunSt.init ())).1 = -EINVAL
  ∧ (ARA_264_multiple_activate (constCap "out" "1" "both")
        (mkInfo 264 "x" 1 2 3 0 4) (RunSt.init ())).1 = -EINVAL
  ∧ (switch_case_number (constCap "out" "1" "both") (mkInfo 999 "s" 1 2 3 0 4)
        (RunSt.init ())).1 =
      (ARA_264_multiple_activate (constCap "out" "1" "both")
        (mkInfo 264 "x" 1 2 3 0 4) (RunSt.init ())).1 :=
  C10_unknown_case_and_invalid_mode_same_error _ _ _ _
    (by decide) (by decide) (by decide)

end Claims

end Gpiotest
